import Mathlib

/-!
Shallow embedding of the `darksky_soccer.py` ETL script.

External effects are modelled as explicit oracles:
* the sqlite filesystem is `env : String → List MatchRow`, mapping a database
  path to the contents of its `Matches` table;
* the Darksky HTTP API is `api : String → String → String → String → String`,
  mapping (password, lat, long, time) to the `daily.data[0].icon` string of
  the JSON response.

Machine reals produced by `round(..., ndigits)` are modelled as rationals;
the rounding function is round-half-up on `ℚ` (Python rounds half to even on
binary floats and sqlite rounds half away from zero, but every claim under
study is insensitive to the choice at half-way points).
-/

/-- A row of the sqlite `Matches` table (the columns the script uses). -/
structure MatchRow where
  Date : String
  Season : Nat
  Div : String
  HomeTeam : String
  AwayTeam : String
  FTHG : Nat
  FTAG : Nat
deriving DecidableEq, Repr

/-- A row of the dataframe produced by `pd.merge(match_data, rain_days, on='Date')`:
all match columns plus the `rain` flag. -/
structure EnrichedRow where
  Date : String
  Season : Nat
  Div : String
  HomeTeam : String
  AwayTeam : String
  FTHG : Nat
  FTAG : Nat
  rain : Bool
deriving DecidableEq, Repr

/-- Embeds `get_season_data`: `SELECT * FROM Matches WHERE Season = {season}
AND Div in ('D1', 'E0')` against the database at path `database`. -/
def get_season_data (env : String → List MatchRow) (database : String)
    (season : Nat) : List MatchRow :=
  (env database).filter (fun m =>
    decide (m.Season = season ∧ (m.Div = "D1" ∨ m.Div = "E0")))

/-- Worker for `pdUnique`: keeps the values not seen before, threading the
set of already seen values. -/
def pdUniqueAux (seen : List String) : List String → List String
  | [] => []
  | d :: ds =>
    if d ∈ seen then pdUniqueAux seen ds
    else d :: pdUniqueAux (d :: seen) ds

/-- Embeds pandas `Series.unique()`: distinct values in first-seen order. -/
def pdUnique (l : List String) : List String := pdUniqueAux [] l

/-- Embeds the Python slice `l[:n]` for an integer bound `n`: a non-negative
`n` keeps the first `n` elements, a negative `n` drops the last `-n`. -/
def pySliceTo {α : Type} (l : List α) (n : Int) : List α :=
  if n < 0 then l.take (l.length - (-n).toNat) else l.take n.toNat

/-- Embeds Python `set(l)` as iterated by the `for` loop in `rain_dates`.
CPython iterates a set in an unspecified (hash-dependent) order; the model
fixes first-seen order, and no claim under study depends on the order. -/
def pySet (l : List String) : List String := pdUnique l

/-- Embeds `get_weather_data`: builds the midnight timestamp, asks the API
oracle for the daily icon and compares it with the literal `"rain"`. -/
def get_weather_data (api : String → String → String → String → String)
    (date password lat long : String) : String × Bool :=
  let time := date ++ "T00:00:00"
  let icon := api password lat long time
  (date, icon == "rain")

/-- The `for date in set(unique_dates)` loop body of `rain_dates`, run over an
explicit iteration list.  Returns the accumulated `(Date, rain)` rows together
with the trace of dates passed to `get_weather_data` (one entry per remote
call). -/
def rain_dates_loop (api : String → String → String → String → String)
    (password : String) : List String → List (String × Bool) × List String
  | [] => ([], [])
  | date :: ds =>
    let row := get_weather_data api date password "52.5200" "13.4050"
    let rest := rain_dates_loop api password ds
    (row :: rest.1, date :: rest.2)

/-- Embeds `rain_dates`: one `(Date, rain)` row per element of
`set(unique_dates)`. -/
def rain_dates (api : String → String → String → String → String)
    (unique_dates : List String) (password : String) : List (String × Bool) :=
  (rain_dates_loop api password (pySet unique_dates)).1

/-- The trace of dates for which `rain_dates` performs a remote weather call. -/
def rain_dates_calls (api : String → String → String → String → String)
    (unique_dates : List String) (password : String) : List String :=
  (rain_dates_loop api password (pySet unique_dates)).2

/-- Embeds `pd.merge(match_data, rain_days, on='Date')`: inner join on the
`Date` key. -/
def merge_on_date (match_data : List MatchRow)
    (rain_days : List (String × Bool)) : List EnrichedRow :=
  match_data.flatMap (fun m =>
    (rain_days.filter (fun r => r.1 == m.Date)).map (fun r =>
      { Date := m.Date, Season := m.Season, Div := m.Div,
        HomeTeam := m.HomeTeam, AwayTeam := m.AwayTeam,
        FTHG := m.FTHG, FTAG := m.FTAG, rain := r.2 }))

/-- Joining an already enriched table with a rain table on `Date` again:
every matching rain row contributes one output row whose `rain` column is the
rain table's value. -/
def merge_enriched_on_date (es : List EnrichedRow)
    (rain_days : List (String × Bool)) : List EnrichedRow :=
  es.flatMap (fun e =>
    (rain_days.filter (fun r => r.1 == e.Date)).map (fun r =>
      { e with rain := r.2 }))

/-- Embeds `match_rain_data`.  Note the source reads match data from the
hardcoded path `'database.sqlite'`, ignoring the `database` argument, and
slices the unique dates with `[:limit_api_calls]`. -/
def match_rain_data (env : String → List MatchRow)
    (api : String → String → String → String → String)
    (database : String) (season : Nat) (password : String)
    (limit_api_calls : Int) : List EnrichedRow :=
  let match_data := get_season_data env "database.sqlite" season
  let unique_match_dates :=
    pySliceTo (pdUnique (match_data.map (fun m => m.Date))) limit_api_calls
  let rain_days := rain_dates api unique_match_dates password
  merge_on_date match_data rain_days

/-- The dates for which `match_rain_data` fetches weather: the call trace of
its `rain_dates` invocation. -/
def match_rain_fetched_dates (env : String → List MatchRow)
    (api : String → String → String → String → String)
    (season : Nat) (password : String) (limit_api_calls : Int) : List String :=
  let match_data := get_season_data env "database.sqlite" season
  let unique_match_dates :=
    pySliceTo (pdUnique (match_data.map (fun m => m.Date))) limit_api_calls
  rain_dates_calls api unique_match_dates password

/-- Rounding to `ndigits` decimal digits over `ℚ`, modelling Python `round`
and sqlite `round` (see the module comment on half-way points). -/
def roundTo (ndigits : Nat) (q : ℚ) : ℚ :=
  ((round (q * 10 ^ ndigits) : ℤ) : ℚ) / 10 ^ ndigits

/-- The four columns of `home_stats` in `calculate_aggregate_stats_pandas`:
per home team, the groupby-sums of `FTHG`, `home_win`, `rain_home_win` and
`rain` (booleans sum as 0/1). -/
structure HomeStats where
  FTHG : Nat
  home_win : Nat
  rain_home_win : Nat
  rain : Nat
deriving DecidableEq, Repr

/-- The four columns of `away_stats`: groupby-sums of `FTAG`, `away_win`,
`rain_away_win` and `rain` per away team. -/
structure AwayStats where
  FTAG : Nat
  away_win : Nat
  rain_away_win : Nat
  rain : Nat
deriving DecidableEq, Repr

/-- Embeds the `home_stats` row of team `t`:
`home_df.groupby(['HomeTeam']).sum()[['FTHG','home_win','rain_home_win','rain']]`
where `home_win = FTHG > FTAG` and `rain_home_win = home_win & rain`. -/
def home_stats (df : List EnrichedRow) (t : String) : HomeStats :=
  let g := df.filter (fun m => m.HomeTeam == t)
  { FTHG := (g.map (fun m => m.FTHG)).sum
    home_win := (g.map (fun m => if m.FTHG > m.FTAG then 1 else 0)).sum
    rain_home_win := (g.map (fun m => if m.FTHG > m.FTAG ∧ m.rain then 1 else 0)).sum
    rain := (g.map (fun m => if m.rain then 1 else 0)).sum }

/-- Embeds the `away_stats` row of team `t`, with `away_win = FTAG > FTHG`. -/
def away_stats (df : List EnrichedRow) (t : String) : AwayStats :=
  let g := df.filter (fun m => m.AwayTeam == t)
  { FTAG := (g.map (fun m => m.FTAG)).sum
    away_win := (g.map (fun m => if m.FTAG > m.FTHG then 1 else 0)).sum
    rain_away_win := (g.map (fun m => if m.FTAG > m.FTHG ∧ m.rain then 1 else 0)).sum
    rain := (g.map (fun m => if m.rain then 1 else 0)).sum }

/-- Embeds `df.groupby('HomeTeam').max()['Season']` for team `t`. -/
def home_max_Season (df : List EnrichedRow) (t : String) : Nat :=
  ((df.filter (fun m => m.HomeTeam == t)).map (fun m => m.Season)).foldl max 0

/-- Lexicographic code-point comparison of character lists, the order Python
and sqlite use on strings. -/
def charListLeb : List Char → List Char → Bool
  | [], _ => true
  | _ :: _, [] => false
  | a :: as, b :: bs => if a < b then true else if b < a then false else charListLeb as bs

/-- The string order used when sorting team names. -/
def strLe (a b : String) : Prop := charListLeb a.data b.data = true

instance : DecidableRel strLe := fun a b => instDecidableEqBool (charListLeb a.data b.data) true

/-- Lexicographic code-point maximum of two strings, the `max` Python and
sqlite compute on text values. -/
def strMax (a b : String) : String :=
  if charListLeb a.data b.data then b else a

/-- Embeds `df.groupby('HomeTeam').max()['Div']` for team `t`. -/
def home_max_Div (df : List EnrichedRow) (t : String) : String :=
  ((df.filter (fun m => m.HomeTeam == t)).map (fun m => m.Div)).foldl strMax ""

/-- Sorting of strings in ascending code-point order, as pandas `groupby`
sorts its group keys and `ORDER BY` sorts text. -/
def sortStrings (l : List String) : List String :=
  List.insertionSort strLe l

/-- The distinct home team names of a dataframe, in first-seen order. -/
def homeTeams (df : List EnrichedRow) : List String :=
  pdUnique (df.map (fun m => m.HomeTeam))

/-- The distinct away team names of a dataframe, in first-seen order. -/
def awayTeams (df : List EnrichedRow) : List String :=
  pdUnique (df.map (fun m => m.AwayTeam))

/-- The index of the pandas aggregate: home group keys (sorted by `groupby`)
inner-merged with the away group keys, then inner-merged again with the
`groupby('HomeTeam').max()` index, which keeps exactly the teams appearing
both as home and as away. -/
def pandasTeams (df : List EnrichedRow) : List String :=
  (sortStrings (homeTeams df)).filter (fun t => decide (t ∈ awayTeams df))

/-- One output record of `calculate_aggregate_stats_pandas`, after the column
renames `HomeTeam → team_name`, `Div → division`, `Season → season`. -/
structure TeamAgg where
  team_name : String
  wins : Nat
  goals : Nat
  rain_win_pct : ℚ
  season : Nat
  division : String
deriving DecidableEq, Repr

/-- The record `calculate_aggregate_stats_pandas` computes for team `t`:
`wins = home_win + away_win`, `goals = FTHG + FTAG`,
`rain_win_pct = round((rain_home_win + rain_away_win) / (rain_y + rain_x), 3)`
(`rain_y` is the away rain count, `rain_x` the home one), and season/division
from the `groupby('HomeTeam').max()` merge. -/
def pandasRecord (df : List EnrichedRow) (t : String) : TeamAgg :=
  let h := home_stats df t
  let a := away_stats df t
  { team_name := t
    wins := h.home_win + a.away_win
    goals := h.FTHG + a.FTAG
    rain_win_pct :=
      roundTo 3 (((h.rain_home_win + a.rain_away_win : Nat) : ℚ) /
        ((a.rain + h.rain : Nat) : ℚ))
    season := home_max_Season df t
    division := home_max_Div df t }

/-- Embeds `calculate_aggregate_stats_pandas` as the list of per-team records,
in the (sorted) index order of the merged dataframe. -/
def calculate_aggregate_stats_pandas (df : List EnrichedRow) : List TeamAgg :=
  (pandasTeams df).map (pandasRecord df)

/-- The columns of the home-side subquery of the sqlite aggregation query. -/
structure SqlHome where
  h_win : Nat
  h_draw : Nat
  h_loss : Nat
  h_rain_win : Nat
  h_rain_games : Nat
  h_goals_for : Nat
  Div : String
  Season : Nat
deriving DecidableEq, Repr

/-- The columns of the away-side subquery of the sqlite aggregation query. -/
structure SqlAway where
  a_win : Nat
  a_rain_win : Nat
  a_rain_games : Nat
  a_goals_for : Nat
deriving DecidableEq, Repr

/-- A `SUM` aggregate over a group of rows, accumulated row by row. -/
def sql_sum (f : EnrichedRow → Nat) (g : List EnrichedRow) : Nat :=
  g.foldl (fun acc m => acc + f m) 0

/-- Embeds the home-side subquery (`GROUP BY HomeTeam`) for the group of
team `t`: `SUM(CASE ...)` aggregates of wins, draws, losses, rain wins, rain
games (sqlite stores the boolean `rain` column as 0/1, so `SUM(rain)` counts
rainy rows), goals for, and `MAX(Div)`, `MAX(Season)`. -/
def sqlHomeAgg (df : List EnrichedRow) (t : String) : SqlHome :=
  let g := df.filter (fun m => m.HomeTeam == t)
  { h_win := sql_sum (fun m => if m.FTHG > m.FTAG then 1 else 0) g
    h_draw := sql_sum (fun m => if m.FTHG = m.FTAG then 1 else 0) g
    h_loss := sql_sum (fun m => if m.FTHG < m.FTAG then 1 else 0) g
    h_rain_win := sql_sum (fun m => if m.FTHG > m.FTAG ∧ m.rain then 1 else 0) g
    h_rain_games := sql_sum (fun m => if m.rain then 1 else 0) g
    h_goals_for := sql_sum (fun m => m.FTHG) g
    Div := g.foldl (fun acc m => strMax acc m.Div) ""
    Season := g.foldl (fun acc m => max acc m.Season) 0 }

/-- Embeds the away-side subquery (`GROUP BY AwayTeam`) for the group of
team `t`. -/
def sqlAwayAgg (df : List EnrichedRow) (t : String) : SqlAway :=
  let g := df.filter (fun m => m.AwayTeam == t)
  { a_win := sql_sum (fun m => if m.FTAG > m.FTHG then 1 else 0) g
    a_rain_win := sql_sum (fun m => if m.FTAG > m.FTHG ∧ m.rain then 1 else 0) g
    a_rain_games := sql_sum (fun m => if m.rain then 1 else 0) g
    a_goals_for := sql_sum (fun m => m.FTAG) g }

/-- One output row of the sqlite aggregation query. -/
structure SqlRec where
  Club : String
  Div : String
  Season : Nat
  W : Nat
  GF : Nat
  rain_win_pct : ℚ
deriving DecidableEq, Repr

/-- The row the sqlite query produces for team `t`: `W = h_win + a_win`,
`GF = h_goals_for + a_goals_for`,
`rain_win_pct = round((a_rain_win + h_rain_win) * 1.0 / (h_rain_games + a_rain_games), 2)`. -/
def sqliteRecord (df : List EnrichedRow) (t : String) : SqlRec :=
  let h := sqlHomeAgg df t
  let a := sqlAwayAgg df t
  { Club := t
    Div := h.Div
    Season := h.Season
    W := h.h_win + a.a_win
    GF := h.h_goals_for + a.a_goals_for
    rain_win_pct :=
      roundTo 2 (((a.a_rain_win + h.h_rain_win : Nat) : ℚ) /
        ((h.h_rain_games + a.a_rain_games : Nat) : ℚ)) }

/-- The join keys of the sqlite query: distinct `HomeTeam` group keys
(ordered by `ORDER BY HomeTeam`) that also occur as an `AwayTeam` group key
(the `ON (HomeTeam==AwayTeam)` inner join). -/
def sqliteTeams (df : List EnrichedRow) : List String :=
  (sortStrings (homeTeams df)).filter (fun t => decide (t ∈ awayTeams df))

/-- The `ORDER BY GF DESC` comparison between two result rows. -/
def gfDesc (a b : SqlRec) : Prop := b.GF ≤ a.GF

instance : DecidableRel gfDesc := fun a b => Nat.decLe b.GF a.GF

instance : IsTotal SqlRec gfDesc := ⟨fun a b => Nat.le_total b.GF a.GF⟩

instance : IsTrans SqlRec gfDesc := ⟨fun _ _ _ hab hbc => le_trans hbc hab⟩

/-- Embeds the result set of `calculate_aggregate_stats_sqlite`: one row per
joined team, ordered by `ORDER BY GF DESC`. -/
def calculate_aggregate_stats_sqlite (df : List EnrichedRow) : List SqlRec :=
  List.insertionSort gfDesc ((sqliteTeams df).map (sqliteRecord df))

/-- The connection state of the sqlite database used by
`calculate_aggregate_stats_sqlite`: whether the staging table
`temp_rain_stats` currently exists, and with which contents. -/
structure DbState where
  temp_rain_stats : Option (List EnrichedRow)
deriving DecidableEq, Repr

/-- Step-level embedding of `calculate_aggregate_stats_sqlite` with its error
path made explicit.  `to_sql(..., if_exists='replace')` stages the dataframe;
then `c.execute(agg_query)` either fails — `query_fails = true`, the exception
propagates and nothing else runs — or succeeds, after which the rows are
fetched and `DROP TABLE temp_rain_stats` executes.  There is no try/finally
in the source. -/
def calculate_aggregate_stats_sqlite_run (df : List EnrichedRow)
    (query_fails : Bool) (s : DbState) :
    Except String (List SqlRec) × DbState :=
  let staged : DbState := { s with temp_rain_stats := some df }
  if query_fails then
    (Except.error "query failed", staged)
  else
    (Except.ok (calculate_aggregate_stats_sqlite df),
      { staged with temp_rain_stats := none })

/-- First match of the worked example in the spec:
Home=A, Away=B, FTHG=2, FTAG=1, Date=2020-01-01, rain=true. -/
def exMatch1 : EnrichedRow :=
  { Date := "2020-01-01", Season := 2020, Div := "E0", HomeTeam := "A",
    AwayTeam := "B", FTHG := 2, FTAG := 1, rain := true }

/-- Second match of the worked example:
Home=B, Away=A, FTHG=0, FTAG=3, Date=2020-01-02, rain=false. -/
def exMatch2 : EnrichedRow :=
  { Date := "2020-01-02", Season := 2020, Div := "E0", HomeTeam := "B",
    AwayTeam := "A", FTHG := 0, FTAG := 3, rain := false }

/-- The two-match example dataframe. -/
def exampleDf : List EnrichedRow := [exMatch1, exMatch2]

/-- Membership in the dedup worker: the values of the list not yet seen. -/
theorem mem_pdUniqueAux (a : String) (l : List String) :
    ∀ seen, a ∈ pdUniqueAux seen l ↔ a ∈ l ∧ a ∉ seen := by
  induction l with
  | nil => intro seen; simp [pdUniqueAux]
  | cons d ds ih =>
    intro seen
    by_cases hd : d ∈ seen
    · rw [show pdUniqueAux seen (d :: ds) = pdUniqueAux seen ds by
        simp [pdUniqueAux, hd]]
      rw [ih seen, List.mem_cons]
      constructor
      · rintro ⟨h1, h2⟩
        exact ⟨Or.inr h1, h2⟩
      · rintro ⟨h1 | h1, h2⟩
        · subst h1; exact absurd hd h2
        · exact ⟨h1, h2⟩
    · rw [show pdUniqueAux seen (d :: ds) = d :: pdUniqueAux (d :: seen) ds by
        simp [pdUniqueAux, hd]]
      rw [List.mem_cons, ih (d :: seen), List.mem_cons, List.mem_cons]
      by_cases had : a = d
      · subst had
        simp [hd]
      · simp [had]

/-- The dedup worker never repeats a value. -/
theorem nodup_pdUniqueAux (l : List String) :
    ∀ seen, (pdUniqueAux seen l).Nodup := by
  induction l with
  | nil => intro seen; simp [pdUniqueAux]
  | cons d ds ih =>
    intro seen
    by_cases hd : d ∈ seen
    · rw [show pdUniqueAux seen (d :: ds) = pdUniqueAux seen ds by
        simp [pdUniqueAux, hd]]
      exact ih seen
    · rw [show pdUniqueAux seen (d :: ds) = d :: pdUniqueAux (d :: seen) ds by
        simp [pdUniqueAux, hd]]
      refine List.nodup_cons.mpr ⟨?_, ih (d :: seen)⟩
      rw [mem_pdUniqueAux]
      rintro ⟨-, h2⟩
      exact h2 (List.mem_cons_self d seen)

/-- `pdUnique` keeps exactly the values of its input. -/
theorem mem_pdUnique {a : String} {l : List String} : a ∈ pdUnique l ↔ a ∈ l := by
  simp [pdUnique, mem_pdUniqueAux]

/-- `pdUnique` produces a duplicate-free list. -/
theorem nodup_pdUnique (l : List String) : (pdUnique l).Nodup :=
  nodup_pdUniqueAux l []

/-- `pdUnique` is a permutation of Mathlib's `dedup` of the same list. -/
theorem pdUnique_perm_dedup (l : List String) : (pdUnique l).Perm l.dedup := by
  rw [List.perm_ext_iff_of_nodup (nodup_pdUnique l) (List.nodup_dedup l)]
  intro a
  rw [mem_pdUnique, List.mem_dedup]

/-- `pdUnique` has one entry per distinct value of its input. -/
theorem length_pdUnique (l : List String) :
    (pdUnique l).length = l.dedup.length :=
  (pdUnique_perm_dedup l).length_eq

/-- Closed form of the weather loop: one `(Date, rain)` row and one remote
call per element of the iteration list, in order. -/
theorem rain_dates_loop_eq (api : String → String → String → String → String)
    (password : String) (l : List String) :
    rain_dates_loop api password l =
      (l.map (fun d => get_weather_data api d password "52.5200" "13.4050"), l) := by
  induction l with
  | nil => rfl
  | cons d ds ih => simp [rain_dates_loop, ih]

/-- The rows `rain_dates` returns: one per element of `set(unique_dates)`. -/
theorem rain_dates_eq (api : String → String → String → String → String)
    (unique_dates : List String) (password : String) :
    rain_dates api unique_dates password =
      (pySet unique_dates).map
        (fun d => get_weather_data api d password "52.5200" "13.4050") := by
  rw [rain_dates, rain_dates_loop_eq]

/-- The dates `rain_dates` calls the weather API for: exactly
`set(unique_dates)`. -/
theorem rain_dates_calls_eq (api : String → String → String → String → String)
    (unique_dates : List String) (password : String) :
    rain_dates_calls api unique_dates password = pySet unique_dates := by
  rw [rain_dates_calls, rain_dates_loop_eq]

/-- Accumulating fold of a `Nat`-valued column equals the initial value plus
the column sum. -/
theorem foldl_add_eq_sum {α : Type} (f : α → Nat) (l : List α) :
    ∀ n, l.foldl (fun acc m => acc + f m) n = n + (l.map f).sum := by
  induction l with
  | nil => intro n; simp
  | cons a as ih =>
    intro n
    rw [List.foldl_cons, ih (n + f a), List.map_cons, List.sum_cons]
    omega

/-- A sqlite `SUM` aggregate equals the sum of the mapped column. -/
theorem sql_sum_eq {f : EnrichedRow → Nat} {g : List EnrichedRow} :
    sql_sum f g = (g.map f).sum := by
  rw [sql_sum, foldl_add_eq_sum]
  omega

/-- Summing a 0/1 indicator column counts the rows satisfying the predicate. -/
theorem sum_ite_eq_countP {α : Type} (p : α → Prop) [DecidablePred p]
    (l : List α) :
    (l.map (fun m => if p m then 1 else 0)).sum = l.countP (fun m => decide (p m)) := by
  induction l with
  | nil => rfl
  | cons a as ih =>
    rw [List.map_cons, List.sum_cons, List.countP_cons, ih]
    by_cases h : p a <;> simp [h] <;> omega

/-- A 0/1 indicator column sums to at most the number of rows. -/
theorem sum_ite_le_length {α : Type} (p : α → Prop) [DecidablePred p]
    (l : List α) :
    (l.map (fun m => if p m then 1 else 0)).sum ≤ l.length := by
  rw [sum_ite_eq_countP]
  exact List.countP_le_length _

/-- Indicator sums are monotone in the predicate. -/
theorem sum_ite_mono {α : Type} {p q : α → Prop} [DecidablePred p]
    [DecidablePred q] (h : ∀ a, p a → q a) (l : List α) :
    (l.map (fun m => if p m then 1 else 0)).sum ≤
      (l.map (fun m => if q m then 1 else 0)).sum := by
  induction l with
  | nil => simp
  | cons a as ih =>
    rw [List.map_cons, List.sum_cons, List.map_cons, List.sum_cons]
    by_cases hp : p a
    · rw [if_pos hp, if_pos (h a hp)]
      omega
    · rw [if_neg hp]
      have : (if q a then 1 else 0) + (as.map (fun m => if q m then 1 else 0)).sum ≥
          (as.map (fun m => if q m then 1 else 0)).sum := by
        by_cases hq : q a <;> simp [hq]
      omega

/-- Rounding on `ℚ` is monotone. -/
theorem round_rat_mono {x y : ℚ} (h : x ≤ y) : round x ≤ round y := by
  rw [round_eq, round_eq]
  exact Int.floor_le_floor (by linarith)

/-- Rounding a non-negative rational to `n` digits stays non-negative. -/
theorem roundTo_nonneg {n : Nat} {q : ℚ} (h : 0 ≤ q) : 0 ≤ roundTo n q := by
  rw [roundTo]
  apply div_nonneg _ (by positivity)
  have h0 : round ((0 : ℚ)) ≤ round (q * 10 ^ n) :=
    round_rat_mono (by positivity)
  rw [round_zero] at h0
  exact_mod_cast h0

/-- Rounding a rational at most one to `n` digits stays at most one. -/
theorem roundTo_le_one {n : Nat} {q : ℚ} (h : q ≤ 1) : roundTo n q ≤ 1 := by
  rw [roundTo, div_le_one (by positivity)]
  have hpow : (0 : ℚ) < 10 ^ n := by positivity
  have h1 : round (q * 10 ^ n) ≤ round (((10 : ℤ) ^ n : ℤ) : ℚ) := by
    apply round_rat_mono
    push_cast
    nlinarith
  rw [round_intCast] at h1
  have : (((round (q * 10 ^ n) : ℤ)) : ℚ) ≤ (((10 : ℤ) ^ n : ℤ) : ℚ) := by
    exact_mod_cast h1
  calc ((round (q * 10 ^ n) : ℤ) : ℚ) ≤ (((10 : ℤ) ^ n : ℤ) : ℚ) := this
    _ = 10 ^ n := by push_cast; ring

/-- First match of the example season, as a raw `Matches` row. -/
def exMatchRow1 : MatchRow :=
  { Date := "2020-01-01", Season := 2020, Div := "E0", HomeTeam := "A",
    AwayTeam := "B", FTHG := 2, FTAG := 1 }

/-- Second match of the example season, as a raw `Matches` row. -/
def exMatchRow2 : MatchRow :=
  { Date := "2020-01-02", Season := 2020, Div := "E0", HomeTeam := "B",
    AwayTeam := "A", FTHG := 0, FTAG := 3 }

/-- A concrete filesystem: the file `database.sqlite` holds the two example
matches, any other path holds nothing. -/
def exEnv : String → List MatchRow := fun path =>
  if path = "database.sqlite" then [exMatchRow1, exMatchRow2] else []

/-- A concrete weather API whose daily icon is always `"rain"`. -/
def exApi : String → String → String → String → String :=
  fun _ _ _ _ => "rain"

/-- C8: on an empty enriched match table the in-memory aggregator returns the
empty record list (and, being a total function, raises no error). -/
theorem pandas_empty_input : calculate_aggregate_stats_pandas [] = [] := rfl

/-- C10: `match_rain_data` is independent of its `database` argument — for
any two database paths and fixed season, password and limit it returns the
same result, because the match data is read from the hardcoded path
`'database.sqlite'`. -/
theorem match_rain_data_ignores_database (env : String → List MatchRow)
    (api : String → String → String → String → String) (d1 d2 : String)
    (season : Nat) (password : String) (limit_api_calls : Int) :
    match_rain_data env api d1 season password limit_api_calls =
      match_rain_data env api d2 season password limit_api_calls := rfl

/-- C9 counterexample: when the aggregation query fails, the claim that
`temp_rain_stats` is dropped on every exit path is false — after the failing
run the staging table still exists. -/
theorem sqlite_drop_missing_on_error :
    ¬ ((calculate_aggregate_stats_sqlite_run exampleDf true
        { temp_rain_stats := none }).2.temp_rain_stats = none) := by
  decide

/-- C9 amended: the staging table `temp_rain_stats` is dropped only on the
success path — when the aggregation query succeeds, the run returns the
aggregated records and leaves no staging table behind; the source has no
try/finally, so the error path (see the counterexample) skips the drop. -/
theorem sqlite_drop_on_success (df : List EnrichedRow) (s : DbState) :
    (calculate_aggregate_stats_sqlite_run df false s).2.temp_rain_stats = none ∧
    (calculate_aggregate_stats_sqlite_run df false s).1 =
      Except.ok (calculate_aggregate_stats_sqlite df) :=
  ⟨rfl, rfl⟩

/-- C1: evaluation of the code at the failing input.  The example season has
two distinct match dates, yet with the default `limit_api_calls = -1` the
slice `unique()[:-1]` drops the last one and weather is fetched only for the
first date — not for every distinct date as the claim states. -/
theorem limit_default_drops_last_date :
    pdUnique ((get_season_data exEnv "database.sqlite" 2020).map
        (fun m => m.Date)) = ["2020-01-01", "2020-01-02"] ∧
    match_rain_fetched_dates exEnv exApi 2020 "secret" (-1) = ["2020-01-01"] := by
  constructor
  · decide
  · decide

/-- C3: on the two-match worked example, the in-memory aggregator's record
for team A has wins = 2, goals = 5 and rain_win_pct = 1.0 (and carries the
season 2020 and division E0 of its home appearances). -/
theorem pandas_example_team_A :
    (calculate_aggregate_stats_pandas exampleDf).find?
        (fun r => r.team_name == "A") =
      some { team_name := "A", wins := 2, goals := 5, rain_win_pct := 1,
             season := 2020, division := "E0" } := by
  have eA : pandasRecord exampleDf "A" =
      TeamAgg.mk "A" 2 5
        (roundTo 3 ((((1 + 0 : Nat)) : ℚ) / (((0 + 1 : Nat)) : ℚ))) 2020 "E0" := rfl
  have eq1 : roundTo 3 ((((1 + 0 : Nat)) : ℚ) / (((0 + 1 : Nat)) : ℚ)) = 1 := by
    norm_num [roundTo, round_eq]
  have hA : pandasRecord exampleDf "A" =
      { team_name := "A", wins := 2, goals := 5, rain_win_pct := 1,
        season := 2020, division := "E0" } := by
    rw [eA, eq1]
  rw [calculate_aggregate_stats_pandas,
    show pandasTeams exampleDf = ["A", "B"] from by decide]
  rw [List.map_cons, List.find?_cons_of_pos _ (by rw [hA]; rfl), hA]

/-- Counting occurrences of a value in a duplicate-free list: one if present,
zero otherwise. -/
theorem countP_eq_ite_of_nodup {l : List String} (hl : l.Nodup) (d : String) :
    l.countP (fun x => decide (x = d)) = if d ∈ l then 1 else 0 := by
  induction l with
  | nil => simp
  | cons a as ih =>
    rcases List.nodup_cons.mp hl with ⟨ha, has⟩
    rw [List.countP_cons, ih has]
    by_cases had : a = d
    · subst had
      simp [ha]
    · have hda : ¬ d = a := fun h => had h.symm
      simp [had, hda, List.mem_cons]

/-- C5: `rain_dates` performs exactly one remote weather call per distinct
date of its input — the call trace has one entry per distinct date and no
repetitions — and its output holds exactly one `(date, rain)` row per
distinct input date. -/
theorem rain_dates_one_call_per_distinct_date
    (api : String → String → String → String → String)
    (unique_dates : List String) (password : String) :
    (rain_dates_calls api unique_dates password).length =
        unique_dates.dedup.length ∧
    (rain_dates_calls api unique_dates password).Nodup ∧
    ∀ d : String,
      (rain_dates api unique_dates password).countP
          (fun r => decide (r.1 = d)) =
        if d ∈ unique_dates then 1 else 0 := by
  refine ⟨?_, ?_, ?_⟩
  · rw [rain_dates_calls_eq, pySet]
    exact length_pdUnique unique_dates
  · rw [rain_dates_calls_eq, pySet]
    exact nodup_pdUnique unique_dates
  · intro d
    rw [rain_dates_eq, List.countP_map]
    have hfun : ((fun r : String × Bool => decide (r.1 = d)) ∘
        (fun x => get_weather_data api x password "52.5200" "13.4050")) =
        fun x => decide (x = d) := rfl
    rw [hfun, pySet, countP_eq_ite_of_nodup (nodup_pdUnique unique_dates) d]
    by_cases hd : d ∈ unique_dates
    · rw [if_pos (mem_pdUnique.mpr hd), if_pos hd]
    · rw [if_neg (fun h => hd (mem_pdUnique.mp h)), if_neg hd]

/-- A filter by key on a table whose keys are duplicate-free returns exactly
the one matching row. -/
theorem filter_eq_singleton_of_nodup_keys {rs : List (String × Bool)}
    (h : (rs.map Prod.fst).Nodup) {r : String × Bool} (hr : r ∈ rs) :
    rs.filter (fun x => x.1 == r.1) = [r] := by
  induction rs with
  | nil => cases hr
  | cons a as ih =>
    rw [List.map_cons, List.nodup_cons] at h
    obtain ⟨ha, has⟩ := h
    rcases List.mem_cons.mp hr with rfl | hrr
    · rw [List.filter_cons, if_pos (by simp)]
      have : as.filter (fun x => x.1 == r.1) = [] := by
        rw [List.filter_eq_nil_iff]
        intro x hx hbeq
        exact ha ((eq_of_beq hbeq) ▸ List.mem_map_of_mem Prod.fst hx)
      rw [this]
    · rw [List.filter_cons, if_neg ?_, ih has hrr]
      intro hbeq
      have : a.1 = r.1 := eq_of_beq (by simpa using hbeq)
      exact ha (this ▸ List.mem_map_of_mem Prod.fst hrr)

/-- Every row the date join produces carries a `(Date, rain)` pair taken from
the rain table. -/
theorem mem_rain_of_merge {ms : List MatchRow} {rs : List (String × Bool)}
    {e : EnrichedRow} (he : e ∈ merge_on_date ms rs) :
    (e.Date, e.rain) ∈ rs := by
  rw [merge_on_date, List.mem_flatMap] at he
  obtain ⟨m, hm, he2⟩ := he
  rw [List.mem_map] at he2
  obtain ⟨r, hr, rfl⟩ := he2
  rw [List.mem_filter] at hr
  obtain ⟨hr1, hr2⟩ := hr
  have hkey : r.1 = m.Date := eq_of_beq hr2
  have : (m.Date, r.2) = r := by rw [← hkey]
  simpa [this] using hr1

/-- A flat map that rebuilds each element unchanged is the identity. -/
theorem flatMap_eq_self {α : Type} {l : List α} {f : α → List α}
    (h : ∀ e ∈ l, f e = [e]) : l.flatMap f = l := by
  induction l with
  | nil => rfl
  | cons a as ih =>
    rw [List.flatMap_cons, h a (List.mem_cons_self a as),
      ih (fun e he => h e (List.mem_cons_of_mem a he))]
    rfl

/-- C4: joining a match table with a rain-observation table on the date key
twice gives the same enriched table as joining once, provided the rain table
has (as the data model requires) at most one observation per date. -/
theorem merge_on_date_idempotent (ms : List MatchRow)
    (rs : List (String × Bool)) (h : (rs.map Prod.fst).Nodup) :
    merge_enriched_on_date (merge_on_date ms rs) rs = merge_on_date ms rs := by
  rw [merge_enriched_on_date]
  apply flatMap_eq_self
  intro e he
  have hmem : (e.Date, e.rain) ∈ rs := mem_rain_of_merge he
  have hfe : rs.filter (fun x => x.1 == e.Date) = [(e.Date, e.rain)] :=
    filter_eq_singleton_of_nodup_keys h hmem
  rw [hfe]
  rfl

/-- C4 witness: the idempotence theorem applied to the example tables, whose
rain table has duplicate-free dates. -/
theorem merge_on_date_idempotent_witness :
    (([("2020-01-01", true), ("2020-01-02", false)].map Prod.fst).Nodup) ∧
    merge_enriched_on_date
        (merge_on_date [exMatchRow1, exMatchRow2]
          [("2020-01-01", true), ("2020-01-02", false)])
        [("2020-01-01", true), ("2020-01-02", false)] =
      merge_on_date [exMatchRow1, exMatchRow2]
        [("2020-01-01", true), ("2020-01-02", false)] :=
  ⟨by decide, merge_on_date_idempotent [exMatchRow1, exMatchRow2]
    [("2020-01-01", true), ("2020-01-02", false)] (by decide)⟩

/-- C7: in every record the in-memory aggregator produces for a team, the
win total never exceeds the number of matches the team played (home plus
away appearances), unconditionally; and whenever the team additionally has
at least one rain-day game, its rain_win_pct lies in the interval [0, 1]. -/
theorem pandas_record_invariants (df : List EnrichedRow) (t : String)
    (h1 : t ∈ pandasTeams df) :
    (pandasRecord df t).wins ≤
      (df.filter (fun m => m.HomeTeam == t)).length +
        (df.filter (fun m => m.AwayTeam == t)).length ∧
    (0 < (home_stats df t).rain + (away_stats df t).rain →
      0 ≤ (pandasRecord df t).rain_win_pct ∧
      (pandasRecord df t).rain_win_pct ≤ 1) := by
  refine ⟨?_, fun h2 => ⟨?_, ?_⟩⟩
  · have hh : (home_stats df t).home_win ≤
        (df.filter (fun m => m.HomeTeam == t)).length :=
      sum_ite_le_length (fun m : EnrichedRow => m.FTHG > m.FTAG) _
    have ha : (away_stats df t).away_win ≤
        (df.filter (fun m => m.AwayTeam == t)).length :=
      sum_ite_le_length (fun m : EnrichedRow => m.FTAG > m.FTHG) _
    show (home_stats df t).home_win + (away_stats df t).away_win ≤ _
    omega
  · exact roundTo_nonneg (div_nonneg (Nat.cast_nonneg _) (Nat.cast_nonneg _))
  · apply roundTo_le_one
    have hden : (0 : ℚ) <
        (((away_stats df t).rain + (home_stats df t).rain : Nat) : ℚ) := by
      have hpos : 0 < (away_stats df t).rain + (home_stats df t).rain := by omega
      exact_mod_cast hpos
    rw [div_le_one hden]
    have mono1 : (home_stats df t).rain_home_win ≤ (home_stats df t).rain :=
      sum_ite_mono (fun a h => h.2) _
    have mono2 : (away_stats df t).rain_away_win ≤ (away_stats df t).rain :=
      sum_ite_mono (fun a h => h.2) _
    have hnum : (home_stats df t).rain_home_win + (away_stats df t).rain_away_win ≤
        (away_stats df t).rain + (home_stats df t).rain := by omega
    exact_mod_cast hnum

/-- C7 witness: the invariants instantiated on the worked example for team A,
which is in the aggregate index; the win bound holds outright and, because A
has one rain-day game, the rain-percentage bounds follow as well. -/
theorem pandas_record_invariants_witness :
    ("A" ∈ pandasTeams exampleDf) ∧
    (0 < (home_stats exampleDf "A").rain + (away_stats exampleDf "A").rain) ∧
    ((pandasRecord exampleDf "A").wins ≤
      (exampleDf.filter (fun m => m.HomeTeam == "A")).length +
        (exampleDf.filter (fun m => m.AwayTeam == "A")).length) ∧
    (0 ≤ (pandasRecord exampleDf "A").rain_win_pct ∧
    (pandasRecord exampleDf "A").rain_win_pct ≤ 1) :=
  ⟨by decide, by decide,
    (pandas_record_invariants exampleDf "A" (by decide)).1,
    (pandas_record_invariants exampleDf "A" (by decide)).2 (by decide)⟩

/-- Counting rainy rows with the boolean column directly is the same as
counting with the decidable proposition the `if` in the source elaborates to. -/
theorem decide_rain_eq : (fun m : EnrichedRow => decide (m.rain = true)) =
    (fun m : EnrichedRow => m.rain) := by
  funext m
  cases hm : m.rain <;> simp

/-- C6: the in-memory aggregator rounds each team's ratio of rain wins to
rain games to 3 decimal digits; the query-based aggregator rounds the same
ratio to 2 decimal digits; and the query-based output is ordered by total
goals descending. -/
theorem aggregator_rounding_and_order (df : List EnrichedRow) :
    (∀ t : String,
      (pandasRecord df t).rain_win_pct =
        roundTo 3
          (((((df.filter (fun m => m.HomeTeam == t)).countP
                  (fun m => decide (m.FTHG > m.FTAG ∧ m.rain)) +
               (df.filter (fun m => m.AwayTeam == t)).countP
                  (fun m => decide (m.FTAG > m.FTHG ∧ m.rain)) : Nat)) : ℚ) /
            ((((df.filter (fun m => m.HomeTeam == t)).countP (fun m => m.rain) +
               (df.filter (fun m => m.AwayTeam == t)).countP
                  (fun m => m.rain) : Nat)) : ℚ))) ∧
    (∀ t : String,
      (sqliteRecord df t).rain_win_pct =
        roundTo 2
          (((((df.filter (fun m => m.HomeTeam == t)).countP
                  (fun m => decide (m.FTHG > m.FTAG ∧ m.rain)) +
               (df.filter (fun m => m.AwayTeam == t)).countP
                  (fun m => decide (m.FTAG > m.FTHG ∧ m.rain)) : Nat)) : ℚ) /
            ((((df.filter (fun m => m.HomeTeam == t)).countP (fun m => m.rain) +
               (df.filter (fun m => m.AwayTeam == t)).countP
                  (fun m => m.rain) : Nat)) : ℚ))) ∧
    List.Sorted gfDesc (calculate_aggregate_stats_sqlite df) := by
  have hhrw : ∀ t, (home_stats df t).rain_home_win =
      (df.filter (fun m => m.HomeTeam == t)).countP
        (fun m => decide (m.FTHG > m.FTAG ∧ m.rain)) :=
    fun t => sum_ite_eq_countP _ _
  have harw : ∀ t, (away_stats df t).rain_away_win =
      (df.filter (fun m => m.AwayTeam == t)).countP
        (fun m => decide (m.FTAG > m.FTHG ∧ m.rain)) :=
    fun t => sum_ite_eq_countP _ _
  have hhr : ∀ t, (home_stats df t).rain =
      (df.filter (fun m => m.HomeTeam == t)).countP (fun m => m.rain) :=
    fun t => by
      rw [← decide_rain_eq]
      exact sum_ite_eq_countP _ _
  have har : ∀ t, (away_stats df t).rain =
      (df.filter (fun m => m.AwayTeam == t)).countP (fun m => m.rain) :=
    fun t => by
      rw [← decide_rain_eq]
      exact sum_ite_eq_countP _ _
  have hsqlhrw : ∀ t, (sqlHomeAgg df t).h_rain_win =
      (df.filter (fun m => m.HomeTeam == t)).countP
        (fun m => decide (m.FTHG > m.FTAG ∧ m.rain)) := fun t => by
    show sql_sum _ _ = _
    rw [sql_sum_eq]
    exact sum_ite_eq_countP _ _
  have hsqlarw : ∀ t, (sqlAwayAgg df t).a_rain_win =
      (df.filter (fun m => m.AwayTeam == t)).countP
        (fun m => decide (m.FTAG > m.FTHG ∧ m.rain)) := fun t => by
    show sql_sum _ _ = _
    rw [sql_sum_eq]
    exact sum_ite_eq_countP _ _
  have hsqlhr : ∀ t, (sqlHomeAgg df t).h_rain_games =
      (df.filter (fun m => m.HomeTeam == t)).countP (fun m => m.rain) :=
    fun t => by
      show sql_sum _ _ = _
      rw [sql_sum_eq, ← decide_rain_eq]
      exact sum_ite_eq_countP _ _
  have hsqlar : ∀ t, (sqlAwayAgg df t).a_rain_games =
      (df.filter (fun m => m.AwayTeam == t)).countP (fun m => m.rain) :=
    fun t => by
      show sql_sum _ _ = _
      rw [sql_sum_eq, ← decide_rain_eq]
      exact sum_ite_eq_countP _ _
  refine ⟨?_, ?_, ?_⟩
  · intro t
    show roundTo 3
        ((((home_stats df t).rain_home_win + (away_stats df t).rain_away_win : Nat) : ℚ) /
          (((away_stats df t).rain + (home_stats df t).rain : Nat) : ℚ)) = _
    rw [hhrw t, harw t, hhr t, har t,
      Nat.add_comm ((df.filter (fun m => m.AwayTeam == t)).countP (fun m => m.rain))
        ((df.filter (fun m => m.HomeTeam == t)).countP (fun m => m.rain))]
  · intro t
    show roundTo 2
        ((((sqlAwayAgg df t).a_rain_win + (sqlHomeAgg df t).h_rain_win : Nat) : ℚ) /
          (((sqlHomeAgg df t).h_rain_games + (sqlAwayAgg df t).a_rain_games : Nat) : ℚ)) = _
    rw [hsqlhrw t, hsqlarw t, hsqlhr t, hsqlar t,
      Nat.add_comm
        ((df.filter (fun m => m.AwayTeam == t)).countP
          (fun m => decide (m.FTAG > m.FTHG ∧ m.rain)))
        ((df.filter (fun m => m.HomeTeam == t)).countP
          (fun m => decide (m.FTHG > m.FTAG ∧ m.rain)))]
  · exact List.sorted_insertionSort gfDesc _

/-- On every team, the two aggregators compute the same name, win total and
goal total. -/
theorem record_projection_eq (df : List EnrichedRow) (t : String) :
    (sqliteRecord df t).Club = (pandasRecord df t).team_name ∧
    (sqliteRecord df t).W = (pandasRecord df t).wins ∧
    (sqliteRecord df t).GF = (pandasRecord df t).goals := by
  refine ⟨rfl, ?_, ?_⟩
  · show (sqlHomeAgg df t).h_win + (sqlAwayAgg df t).a_win =
      (home_stats df t).home_win + (away_stats df t).away_win
    have e1 : (sqlHomeAgg df t).h_win = (home_stats df t).home_win := by
      show sql_sum _ _ = _
      rw [sql_sum_eq]
      rfl
    have e2 : (sqlAwayAgg df t).a_win = (away_stats df t).away_win := by
      show sql_sum _ _ = _
      rw [sql_sum_eq]
      rfl
    rw [e1, e2]
  · show (sqlHomeAgg df t).h_goals_for + (sqlAwayAgg df t).a_goals_for =
      (home_stats df t).FTHG + (away_stats df t).FTAG
    have e1 : (sqlHomeAgg df t).h_goals_for = (home_stats df t).FTHG := by
      show sql_sum _ _ = _
      rw [sql_sum_eq]
      rfl
    have e2 : (sqlAwayAgg df t).a_goals_for = (away_stats df t).FTAG := by
      show sql_sum _ _ = _
      rw [sql_sum_eq]
      rfl
    rw [e1, e2]

/-- C2: on any enriched match table in which every team has a home
appearance, an away appearance and a rain-day match, the in-memory and the
query-based aggregators produce the same set of per-team records when
compared on team name, total wins and total goals. -/
theorem aggregators_agree (df : List EnrichedRow)
    (H : ∀ t : String, (t ∈ homeTeams df ∨ t ∈ awayTeams df) →
      t ∈ homeTeams df ∧ t ∈ awayTeams df ∧
        0 < (home_stats df t).rain + (away_stats df t).rain) :
    ∀ x : String × Nat × Nat,
      x ∈ (calculate_aggregate_stats_pandas df).map
          (fun r => (r.team_name, r.wins, r.goals)) ↔
      x ∈ (calculate_aggregate_stats_sqlite df).map
          (fun r => (r.Club, r.W, r.GF)) := by
  intro x
  have hperm :
      ((calculate_aggregate_stats_sqlite df).map
        (fun r => (r.Club, r.W, r.GF))).Perm
      ((((sqliteTeams df).map (sqliteRecord df))).map
        (fun r => (r.Club, r.W, r.GF))) :=
    (List.perm_insertionSort gfDesc _).map _
  rw [hperm.mem_iff]
  rw [calculate_aggregate_stats_pandas, List.map_map, List.map_map]
  have hmap : ((sqliteTeams df).map
      ((fun r : SqlRec => (r.Club, r.W, r.GF)) ∘ sqliteRecord df)) =
      ((pandasTeams df).map
      ((fun r : TeamAgg => (r.team_name, r.wins, r.goals)) ∘ pandasRecord df)) := by
    have hteams : sqliteTeams df = pandasTeams df := rfl
    rw [hteams]
    apply List.map_congr_left
    intro t ht
    obtain ⟨e1, e2, e3⟩ := record_projection_eq df t
    simp only [Function.comp_apply, e1, e2, e3]
  rw [hmap]

/-- C2 witness: the agreement theorem applied to the worked example, whose
two teams each have one home appearance, one away appearance and one rain-day
game. -/
theorem aggregators_agree_witness :
    (∀ t : String, (t ∈ homeTeams exampleDf ∨ t ∈ awayTeams exampleDf) →
      t ∈ homeTeams exampleDf ∧ t ∈ awayTeams exampleDf ∧
        0 < (home_stats exampleDf t).rain + (away_stats exampleDf t).rain) ∧
    ∀ x : String × Nat × Nat,
      x ∈ (calculate_aggregate_stats_pandas exampleDf).map
          (fun r => (r.team_name, r.wins, r.goals)) ↔
      x ∈ (calculate_aggregate_stats_sqlite exampleDf).map
          (fun r => (r.Club, r.W, r.GF)) := by
  have hH : ∀ t : String, (t ∈ homeTeams exampleDf ∨ t ∈ awayTeams exampleDf) →
      t ∈ homeTeams exampleDf ∧ t ∈ awayTeams exampleDf ∧
        0 < (home_stats exampleDf t).rain + (away_stats exampleDf t).rain := by
    intro t ht
    have hAB : t = "A" ∨ t = "B" := by
      have h1 : homeTeams exampleDf = ["A", "B"] := by decide
      have h2 : awayTeams exampleDf = ["B", "A"] := by decide
      rw [h1, h2] at ht
      rcases ht with h | h
      · simpa using h
      · have : t = "B" ∨ t = "A" := by simpa using h
        tauto
    rcases hAB with rfl | rfl
    · exact ⟨by decide, by decide, by decide⟩
    · exact ⟨by decide, by decide, by decide⟩
  exact ⟨hH, aggregators_agree exampleDf hH⟩
